import Mathlib

/-!
Shallow embedding of the `claude-daily-digest` collection pipeline
(`scripts/collect_data.py`, `scripts/collectors/image_fetcher.py`,
`scripts/collectors/summary_generator.py`), together with theorems that
check the natural-language specification against the code.

Modelling conventions:
* Python dict items become the structure `Item`; a text field whose reader
  uses `item.get(key, '')` becomes a `String` (absence ≡ `""`), a field
  read with `item.get(key)` (default `None`) becomes an `Option`.
* Python truthiness of an optional string (`None` and `""` both falsy) is
  `pyTruthy`.
* `datetime` instants are integers (seconds); `timedelta(days=d)` is
  `86400 * d`.
* The MD5 digest, `urlparse(...).netloc`, and the network fetches
  (`fetch_og_image`, `SummaryGenerator.extract_content`) are external
  library / I/O effects: they enter as explicit function parameters
  (`hash`, `netloc`, `fetchOg`, `extract`), so every theorem quantifies
  over all possible behaviours of those effects.
* The TinyDB table is a list of documents in insertion order: `insert`
  appends, `search`/`remove` filter by the predicate.
-/

/-- Truthiness of an optional Python string: `None` and `""` are falsy. -/
def pyTruthy : Option String → Bool
  | none => false
  | some s => !(s == "")

/-- Engagement sub-dict of an item; readers use `.get(key, 0)`, so every
field defaults to 0. -/
structure Engagement where
  points : Int := 0
  score : Int := 0
  reactions : Int := 0
  comments : Int := 0
deriving Repr, DecidableEq

/-- A content item as it flows through `collect_data.py`. -/
structure Item where
  url : String := ""
  title : String := ""
  summary : String := ""
  description : String := ""
  source : Option String := none
  category : Option String := none
  engagement : Option Engagement := none
  stars : Option Int := none
  quality_score : Option Int := none
  image_url : Option String := none
  owner_avatar : Option String := none
deriving Repr, DecidableEq

/-- A document of the TinyDB content database, as written by
`ContentDatabase.add_content`. -/
structure LedgerEntry where
  fingerprint : String
  url : String
  title : String
  timestamp : Int
  category : String
deriving Repr, DecidableEq

/-- The TinyDB table backing `ContentDatabase`: documents in insertion
order. -/
abbrev ContentDatabase := List LedgerEntry

/-- `ContentDatabase.get_fingerprint`: `hashlib.md5(f"{url}{title}".encode()).hexdigest()`.
The digest function itself is the parameter `hash`; the code applies it to
the bare concatenation `url ++ title`. -/
def get_fingerprint (hash : String → String) (url title : String) : String :=
  hash (url ++ title)

/-- `ContentDatabase.is_duplicate`: `len(self.db.search(fingerprint == fp)) > 0`. -/
def is_duplicate (hash : String → String) (db : ContentDatabase)
    (url title : String) : Bool :=
  decide ((db.filter
    (fun e => e.fingerprint == get_fingerprint hash url title)).length > 0)

/-- `ContentDatabase.add_content`: unconditionally `self.db.insert({...})`
with the item's fingerprint, url, title, the current time, and
`item.get('category', 'unknown')`. -/
def add_content (hash : String → String) (db : ContentDatabase)
    (item : Item) (now : Int) : ContentDatabase :=
  db ++ [{ fingerprint := get_fingerprint hash item.url item.title,
           url := item.url,
           title := item.title,
           timestamp := now,
           category := item.category.getD "unknown" }]

/-- `ContentDatabase.cleanup_old_entries`: `cutoff = now - timedelta(days)`;
`self.db.remove(is_old)` deletes every document with `timestamp < cutoff`. -/
def cleanup_old_entries (db : ContentDatabase) (now : Int)
    (days : Int) : ContentDatabase :=
  let cutoff := now - 86400 * days
  db.filter (fun e => !(decide (e.timestamp < cutoff)))

/-- Number of ledger documents carrying a given fingerprint. -/
def countFp (db : ContentDatabase) (fp : String) : Nat :=
  (db.filter (fun e => e.fingerprint == fp)).length

/-- The per-item body of the deduplication loop in `main`
(`collect_data.py` lines 263-269): keep the item and record it iff
`is_duplicate` is false; returns the accepted items in input order and the
updated database. -/
def dedup_pass (hash : String → String) (db : ContentDatabase) (now : Int) :
    List Item → (List Item × ContentDatabase)
  | [] => ([], db)
  | item :: rest =>
    if is_duplicate hash db item.url item.title then
      dedup_pass hash db now rest
    else
      let db2 := add_content hash db item now
      let (more, db3) := dedup_pass hash db2 now rest
      (item :: more, db3)

-- Basic counting lemmas about the ledger.

theorem countFp_append (db1 db2 : ContentDatabase) (fp : String) :
    countFp (db1 ++ db2) fp = countFp db1 fp + countFp db2 fp := by
  simp [countFp, List.filter_append]

theorem is_duplicate_iff_countFp (hash : String → String)
    (db : ContentDatabase) (url title : String) :
    is_duplicate hash db url title =
      decide (0 < countFp db (get_fingerprint hash url title)) := by
  simp [is_duplicate, countFp]

/-- C1: after recording item `A`, `is_duplicate` answers true for any item
`B` with the same `(url, title)`, whatever its other fields. -/
theorem is_duplicate_after_add (hash : String → String)
    (db : ContentDatabase) (A B : Item) (now : Int)
    (hu : B.url = A.url) (ht : B.title = A.title) :
    is_duplicate hash (add_content hash db A now) B.url B.title = true := by
  rw [hu, ht]
  simp [is_duplicate, add_content, List.filter_append, get_fingerprint]

/-- C1 witness: two concrete items sharing `(url, title)` but differing in
`source` and `category`. -/
theorem is_duplicate_after_add_witness :
    is_duplicate id
      (add_content id []
        { url := "https://a.example/x", title := "T",
          source := some "Hacker News", category := some "community_discussions" } 0)
      ({ url := "https://a.example/x", title := "T",
          source := some "Reddit", category := some "use_cases" } : Item).url
      ({ url := "https://a.example/x", title := "T",
          source := some "Reddit", category := some "use_cases" } : Item).title
      = true :=
  is_duplicate_after_add id []
    { url := "https://a.example/x", title := "T",
      source := some "Hacker News", category := some "community_discussions" }
    { url := "https://a.example/x", title := "T",
      source := some "Reddit", category := some "use_cases" } 0 rfl rfl

/-- C2 counterexample: `add_content` is `db.insert` with no duplicate
check, so recording the same item twice leaves two ledger documents with
the same fingerprint, not one. -/
theorem add_content_twice_not_idempotent :
    countFp
      (add_content id (add_content id [] { url := "u", title := "t" } 0)
        { url := "u", title := "t" } 0)
      (get_fingerprint id "u" "t") = 2 ∧
    ¬ countFp
      (add_content id (add_content id [] { url := "u", title := "t" } 0)
        { url := "u", title := "t" } 0)
      (get_fingerprint id "u" "t") = 1 := by
  constructor <;> decide

/-- C2 amended: the insert is made idempotent only by the guard in `main`'s
deduplication loop; feeding the same item twice through that loop
(`dedup_pass`) over a database not yet holding its fingerprint produces
exactly one ledger document for it. -/
theorem dedup_pass_record_once (hash : String → String)
    (db : ContentDatabase) (item : Item) (now : Int)
    (h : is_duplicate hash db item.url item.title = false) :
    countFp ((dedup_pass hash db now [item, item]).2)
      (get_fingerprint hash item.url item.title) = 1 := by
  have hcount : countFp db (get_fingerprint hash item.url item.title) = 0 := by
    rw [is_duplicate_iff_countFp] at h
    simpa using h
  have hdup2 : is_duplicate hash (add_content hash db item now)
      item.url item.title = true := by
    rw [is_duplicate_iff_countFp]
    simp [add_content, countFp_append, countFp, get_fingerprint]
  simp only [dedup_pass, h, Bool.false_eq_true, if_false, hdup2, if_true]
  simp [add_content, countFp_append, hcount, countFp, get_fingerprint]
  intro a ha
  have hnil : db.filter
      (fun e => e.fingerprint == get_fingerprint hash item.url item.title) = [] :=
    List.length_eq_zero.mp hcount
  have := List.filter_eq_nil_iff.mp hnil a ha
  simpa [get_fingerprint] using this

/-- C2 amended witness at a concrete item and empty database. -/
theorem dedup_pass_record_once_witness :
    countFp ((dedup_pass id [] 0 [{ url := "u", title := "t" },
      { url := "u", title := "t" }]).2) (get_fingerprint id "u" "t") = 1 :=
  dedup_pass_record_once id [] { url := "u", title := "t" } 0 (by decide)

/-- C9: the fingerprint is a digest of the bare concatenation `url ++ title`,
so any two `(url, title)` pairs with equal concatenations share a
fingerprint, and recording the first makes the second a duplicate. -/
theorem get_fingerprint_concat_collision (hash : String → String)
    (u1 t1 u2 t2 : String) (h : u1 ++ t1 = u2 ++ t2) :
    get_fingerprint hash u1 t1 = get_fingerprint hash u2 t2 ∧
    is_duplicate hash (add_content hash [] { url := u1, title := t1 } 0)
      u2 t2 = true := by
  have hfp : get_fingerprint hash u1 t1 = get_fingerprint hash u2 t2 :=
    congrArg hash h
  refine ⟨hfp, ?_⟩
  simp [is_duplicate, add_content, hfp, get_fingerprint, h]

/-- C9 witness: `("a", "bc")` and `("ab", "c")` concatenate identically, so
the second is rejected as a duplicate of the first. -/
theorem get_fingerprint_concat_collision_witness :
    get_fingerprint id "a" "bc" = get_fingerprint id "ab" "c" ∧
    is_duplicate id (add_content id [] { url := "a", title := "bc" } 0)
      "ab" "c" = true :=
  get_fingerprint_concat_collision id "a" "bc" "ab" "c" (by decide)

/-- C8: the sweep removes exactly the documents strictly older than the
cutoff `now - R days`, keeps every document with timestamp at or after the
cutoff, and leaves the kept documents unchanged and in order (the result
is a sublist of the original table). -/
theorem cleanup_old_entries_spec (db : ContentDatabase) (now days : Int)
    (e : LedgerEntry) :
    (e ∈ cleanup_old_entries db now days ↔
      e ∈ db ∧ now - 86400 * days ≤ e.timestamp) ∧
    List.Sublist (cleanup_old_entries db now days) db := by
  constructor
  · simp [cleanup_old_entries, List.mem_filter, Int.not_lt]
  · exact List.filter_sublist db

/-- C8 witness: with `R = 1` day, entries aged 2 days, exactly 1 day and
12 hours relative to `now = 2·86400` are swept or kept as the cutoff
dictates. -/
theorem cleanup_old_entries_spec_witness :
    (({ fingerprint := "f0", url := "u0", title := "t0", timestamp := 0,
        category := "c" } : LedgerEntry) ∈
      cleanup_old_entries
        [{ fingerprint := "f0", url := "u0", title := "t0", timestamp := 0,
           category := "c" },
         { fingerprint := "f1", url := "u1", title := "t1", timestamp := 86400,
           category := "c" },
         { fingerprint := "f2", url := "u2", title := "t2", timestamp := 129600,
           category := "c" }] (2 * 86400) 1 ↔
      ({ fingerprint := "f0", url := "u0", title := "t0", timestamp := 0,
         category := "c" } : LedgerEntry) ∈
        ([{ fingerprint := "f0", url := "u0", title := "t0", timestamp := 0,
            category := "c" },
          { fingerprint := "f1", url := "u1", title := "t1", timestamp := 86400,
            category := "c" },
          { fingerprint := "f2", url := "u2", title := "t2", timestamp := 129600,
            category := "c" }] : ContentDatabase) ∧
        2 * 86400 - 86400 * 1 ≤ (0 : Int)) :=
  (cleanup_old_entries_spec
    [{ fingerprint := "f0", url := "u0", title := "t0", timestamp := 0,
       category := "c" },
     { fingerprint := "f1", url := "u1", title := "t1", timestamp := 86400,
       category := "c" },
     { fingerprint := "f2", url := "u2", title := "t2", timestamp := 129600,
       category := "c" }] (2 * 86400) 1
    { fingerprint := "f0", url := "u0", title := "t0", timestamp := 0,
      category := "c" }).1

/-!
Scoring and ranking (`calculate_quality_score`, `filter_and_rank_content`).
Python strings are handled as their code-point lists; `str.lower()` is
`Char.toLower` mapped over the code points, and the Python substring test
`kw in s` is the list-infix relation.
-/

/-- Python `sub in s` on strings: substring occurrence. -/
def strIn (sub s : List Char) : Bool :=
  decide (sub <:+: s)

/-- Python `s.lower()` over code points. -/
def pyLower (s : String) : List Char :=
  s.toList.map Char.toLower

/-- `practical_keywords` of `calculate_quality_score`. -/
def practical_keywords : List String :=
  ["tutorial", "guide", "how to", "step by step",
   "tips", "tricks", "best practices", "workflow",
   "use case", "example", "template", "prompt"]

/-- `claude_code_keywords` of `calculate_quality_score`. -/
def claude_code_keywords : List String :=
  ["claude code", "claude-code", "mcp", "model context protocol",
   "terminal", "cli", "vscode", "agentic", "agent",
   "coding assistant", "code generation"]

/-- `official_keywords` of `calculate_quality_score`. -/
def official_keywords : List String :=
  ["claude", "anthropic", "api", "update", "release",
   "announcement", "feature", "new", "sonnet", "opus", "haiku"]

/-- `medium_keywords` of `calculate_quality_score`. -/
def medium_keywords : List String :=
  ["integration", "review", "comparison", "analysis",
   "project", "built with", "created"]

/-- One keyword loop of `calculate_quality_score`: for each keyword add
`tw` on a title hit and `cw` on a content hit. -/
def keywordTier (kws : List String) (title content : List Char)
    (tw cw : Int) (acc : Int) : Int :=
  kws.foldl (fun s kw =>
    s + (if strIn kw.toList title then tw else 0)
      + (if strIn kw.toList content then cw else 0)) acc

/-- `calculate_quality_score` (`collect_data.py` lines 84-187), translated
clause by clause. -/
def calculate_quality_score (item : Item) : Int :=
  let title := pyLower item.title
  let content := pyLower (item.summary ++ item.description)
  let score : Int := 0
  let score := keywordTier practical_keywords title content 20 8 score
  let score := keywordTier claude_code_keywords title content 18 7 score
  let score := keywordTier official_keywords title content 15 5 score
  let score := keywordTier medium_keywords title content 10 3 score
  let score := score +
    (match item.source with
     | some src =>
       if ["Anthropic News", "Anthropic Docs", "GitHub Releases"].contains src
       then 30 else 0
     | none => 0)
  let score := score +
    (match item.engagement with
     | some eng =>
       let points :=
         if eng.points ≠ 0 then eng.points
         else if eng.score ≠ 0 then eng.score
         else eng.reactions
       let comments := eng.comments
       (if points > 100 then 25
        else if points > 50 then 15
        else if points > 20 then 10 else 0) +
       (if comments > 50 then 15
        else if comments > 20 then 10 else 0)
     | none => 0)
  let score := score +
    (match item.stars with
     | some stars =>
       if stars > 500 then 25
       else if stars > 100 then 20
       else if stars > 50 then 10 else 0
     | none => 0)
  let score := score +
    (if content.length > 500 then 10
     else if content.length > 200 then 5 else 0)
  score

/-- The scoring loop of `filter_and_rank_content`: keep each item whose
score reaches `min_score`, writing the score into `quality_score`, in
input order. -/
def scoreFilter (items : List Item) (min_score : Int) : List Item :=
  match items with
  | [] => []
  | item :: rest =>
    let score := calculate_quality_score item
    if min_score ≤ score then
      { item with quality_score := some score } :: scoreFilter rest min_score
    else
      scoreFilter rest min_score

/-- The sort key used by `scored_items.sort(key=..., reverse=True)`:
every scored item carries `quality_score`. -/
def qkey (item : Item) : Int :=
  item.quality_score.getD 0

/-- One insertion step of a stable descending sort by `key`: the inserted
element goes before the first element whose key is not greater. -/
def insertDesc {α : Type} (key : α → Int) (x : α) : List α → List α
  | [] => [x]
  | y :: ys => if key x < key y then y :: insertDesc key x ys else x :: y :: ys

/-- Stable descending sort by `key`. Python's `list.sort` is documented
stable; a stable descending sort is uniquely determined by its input, and
insertion sort below computes it. -/
def sortDesc {α : Type} (key : α → Int) : List α → List α
  | [] => []
  | x :: xs => insertDesc key x (sortDesc key xs)

/-- `filter_and_rank_content` (`collect_data.py` lines 190-203): score
filter, then stable descending sort by `quality_score`. -/
def filter_and_rank_content (items : List Item)
    (min_score : Int := 20) : List Item :=
  sortDesc qkey (scoreFilter items min_score)

-- Sorting lemmas for the stable descending sort.

theorem insertDesc_mem {α : Type} (key : α → Int) (x : α) (l : List α)
    (z : α) : z ∈ insertDesc key x l ↔ z = x ∨ z ∈ l := by
  induction l with
  | nil => simp [insertDesc]
  | cons y ys ih =>
    by_cases hxy : key x < key y
    · simp only [insertDesc, if_pos hxy, List.mem_cons, ih]
      tauto
    · simp only [insertDesc, if_neg hxy, List.mem_cons]

theorem sortDesc_mem {α : Type} (key : α → Int) (l : List α) (z : α) :
    z ∈ sortDesc key l ↔ z ∈ l := by
  induction l with
  | nil => simp [sortDesc]
  | cons y ys ih => simp [sortDesc, insertDesc_mem, ih]

theorem insertDesc_pairwise {α : Type} (key : α → Int) (x : α) (l : List α)
    (h : l.Pairwise (fun a b => key b ≤ key a)) :
    (insertDesc key x l).Pairwise (fun a b => key b ≤ key a) := by
  induction l with
  | nil => simp [insertDesc]
  | cons y ys ih =>
    rw [List.pairwise_cons] at h
    obtain ⟨hy, hys⟩ := h
    by_cases hxy : key x < key y
    · rw [insertDesc, if_pos hxy, List.pairwise_cons]
      refine ⟨?_, ih hys⟩
      intro z hz
      rcases (insertDesc_mem key x ys z).mp hz with rfl | hz'
      · exact le_of_lt hxy
      · exact hy z hz'
    · rw [insertDesc, if_neg hxy, List.pairwise_cons]
      refine ⟨?_, List.pairwise_cons.mpr ⟨hy, hys⟩⟩
      intro z hz
      rcases List.mem_cons.mp hz with rfl | hz'
      · exact not_lt.mp hxy
      · exact le_trans (hy z hz') (not_lt.mp hxy)

theorem sortDesc_pairwise {α : Type} (key : α → Int) (l : List α) :
    (sortDesc key l).Pairwise (fun a b => key b ≤ key a) := by
  induction l with
  | nil => simp [sortDesc]
  | cons y ys ih => exact insertDesc_pairwise key y (sortDesc key ys) ih

theorem insertDesc_filter_key {α : Type} (key : α → Int) (s : Int) (x : α)
    (l : List α) :
    (insertDesc key x l).filter (fun a => decide (key a = s)) =
      if key x = s then x :: l.filter (fun a => decide (key a = s))
      else l.filter (fun a => decide (key a = s)) := by
  induction l with
  | nil => by_cases hx : key x = s <;> simp [insertDesc, hx]
  | cons y ys ih =>
    by_cases hxy : key x < key y
    · rw [insertDesc, if_pos hxy]
      by_cases hx : key x = s
      · have hy : ¬ key y = s := by omega
        simp [List.filter_cons, hx, hy, ih]
      · simp [List.filter_cons, hx, ih]
    · rw [insertDesc, if_neg hxy]
      by_cases hx : key x = s <;> simp [List.filter_cons, hx]

theorem sortDesc_filter_key {α : Type} (key : α → Int) (s : Int)
    (l : List α) :
    (sortDesc key l).filter (fun a => decide (key a = s)) =
      l.filter (fun a => decide (key a = s)) := by
  induction l with
  | nil => simp [sortDesc]
  | cons y ys ih =>
    rw [sortDesc, insertDesc_filter_key]
    by_cases hy : key y = s <;> simp [List.filter_cons, hy, ih]

-- Lemmas about the scoring loop.

theorem calculate_quality_score_update (item : Item) (v : Option Int) :
    calculate_quality_score { item with quality_score := v } =
      calculate_quality_score item := rfl

theorem scoreFilter_eq_filterMap (items : List Item) (m : Int) :
    scoreFilter items m =
      (items.filter (fun it => decide (m ≤ calculate_quality_score it))).map
        (fun it =>
          { it with quality_score := some (calculate_quality_score it) }) := by
  induction items with
  | nil => rfl
  | cons a rest ih =>
    by_cases h : m ≤ calculate_quality_score a <;>
      simp [scoreFilter, List.filter_cons, h, ih]

theorem scoreFilter_mem (items : List Item) (m : Int) (it : Item)
    (h : it ∈ scoreFilter items m) :
    m ≤ calculate_quality_score it ∧
      it.quality_score = some (calculate_quality_score it) := by
  rw [scoreFilter_eq_filterMap] at h
  obtain ⟨it0, hmem, rfl⟩ := List.mem_map.mp h
  have h0 := (List.mem_filter.mp hmem).2
  rw [decide_eq_true_eq] at h0
  exact ⟨by rw [calculate_quality_score_update]; exact h0,
    by simp [calculate_quality_score_update]⟩

/-- C3: `filter_and_rank_content` (i) returns only items whose computed
score reaches `min_score`, (ii) writes that score into `quality_score`,
(iii) is sorted non-increasingly by `quality_score`, and (iv) keeps every
equal-score class in input order (the score filter `scoreFilter` is shown
to preserve input order by the last conjunct, and the sort leaves each
score class of it unchanged). -/
theorem filter_and_rank_content_spec (items : List Item) (min_score : Int) :
    (∀ it ∈ filter_and_rank_content items min_score,
       min_score ≤ calculate_quality_score it ∧
       it.quality_score = some (calculate_quality_score it)) ∧
    (filter_and_rank_content items min_score).Pairwise
      (fun a b => qkey b ≤ qkey a) ∧
    (∀ s : Int,
       (filter_and_rank_content items min_score).filter
           (fun a => decide (qkey a = s)) =
         (scoreFilter items min_score).filter
           (fun a => decide (qkey a = s))) ∧
    scoreFilter items min_score =
      (items.filter
        (fun it => decide (min_score ≤ calculate_quality_score it))).map
        (fun it =>
          { it with quality_score := some (calculate_quality_score it) }) := by
  refine ⟨?_, ?_, ?_, scoreFilter_eq_filterMap items min_score⟩
  · intro it hit
    exact scoreFilter_mem items min_score it
      ((sortDesc_mem qkey (scoreFilter items min_score) it).mp hit)
  · exact sortDesc_pairwise qkey (scoreFilter items min_score)
  · intro s
    exact sortDesc_filter_key qkey s (scoreFilter items min_score)

set_option maxRecDepth 40000 in
/-- C3 witness: the empty default item scores 0 and survives
`min_score = 0`, with `quality_score` set to its computed score. -/
theorem filter_and_rank_content_spec_witness :
    (0 : Int) ≤ calculate_quality_score
      { quality_score := some (calculate_quality_score {}) } ∧
    ({ quality_score := some (calculate_quality_score {}) } : Item).quality_score
      = some (calculate_quality_score
          { quality_score := some (calculate_quality_score {}) }) :=
  (filter_and_rank_content_spec [{}] 0).1
    { quality_score := some (calculate_quality_score {}) } (by decide)

/-!
Image enrichment (`collectors/image_fetcher.py`). The page fetch
`fetch_og_image` is a network effect and enters as the parameter
`fetchOg : String → Option String`; `urlparse(url).netloc` is the
parameter `netloc : String → String` (for a plain string input `urlparse`
never raises, so the bare `except` in `get_domain` is dead).
-/

/-- `SITE_LOGOS`: known site logos used as fallback, in insertion order. -/
def SITE_LOGOS : List (String × String) :=
  [("github.com",
    "https://github.githubassets.com/images/modules/logos_page/GitHub-Mark.png"),
   ("news.ycombinator.com", "https://news.ycombinator.com/y18.svg"),
   ("reddit.com",
    "https://www.redditstatic.com/desktop2x/img/favicon/android-icon-192x192.png"),
   ("dev.to",
    "https://dev-to-uploads.s3.amazonaws.com/uploads/logos/resized_logo_UQww2soKuUsjaOGNB38o.png"),
   ("anthropic.com", "https://www.anthropic.com/images/icons/apple-touch-icon.png"),
   ("docs.anthropic.com",
    "https://www.anthropic.com/images/icons/apple-touch-icon.png"),
   ("medium.com",
    "https://cdn-images-1.medium.com/fit/c/152/152/1*sHhtYhaCe2Uc3IU0IgKwIQ.png")]

/-- Python `s.replace('www.', '')` specialised to the constant pattern the
code uses: delete every non-overlapping occurrence of `www.`, scanning
left to right. -/
def removeWWW : List Char → List Char
  | 'w' :: 'w' :: 'w' :: '.' :: rest => removeWWW rest
  | c :: rest => c :: removeWWW rest
  | [] => []

/-- `get_domain`: `urlparse(url).netloc.replace('www.', '')` (for a string
input `urlparse` never raises, so the `except` branch returning `None` is
unreachable). -/
def get_domain (netloc : String → String) (url : String) : Option String :=
  some (String.mk (removeWWW (netloc url).toList))

/-- `get_fallback_image`: `None` without a truthy domain, else the first
known site logo whose key occurs in the domain, else the favicon service
URL for the domain. -/
def get_fallback_image (netloc : String → String) (url : String) :
    Option String :=
  match get_domain netloc url with
  | none => none
  | some domain =>
    if domain == "" then none
    else
      match SITE_LOGOS.find? (fun p => strIn p.1.toList domain.toList) with
      | some p => some p.2
      | none =>
        some ("https://www.google.com/s2/favicons?domain=" ++ domain ++ "&sz=128")

/-- `get_image_for_item` (`image_fetcher.py` lines 95-126): skip items
that already carry a truthy `image_url` or `owner_avatar`; otherwise try
the Open-Graph fetch, fall back to `get_fallback_image`, and store the
result only if truthy. -/
def get_image_for_item (netloc : String → String)
    (fetchOg : String → Option String) (item : Item)
    (fetch_og : Bool := true) : Item :=
  if pyTruthy item.image_url || pyTruthy item.owner_avatar then item
  else
    let url := item.url
    let image_url : Option String := none
    let image_url := if fetch_og && !(url == "") then fetchOg url else image_url
    let image_url :=
      if pyTruthy image_url then image_url else get_fallback_image netloc url
    if pyTruthy image_url then { item with image_url := image_url } else item

/-!
Summary enrichment (`collectors/summary_generator.py`).
`SummaryGenerator.extract_content` performs network fetches and enters as
the parameter `extract : String → Option String`; `create_summary` is pure
and is translated in full.
-/

/-- Python `s.strip()` on code points. -/
def pyStrip (l : List Char) : List Char :=
  ((l.dropWhile Char.isWhitespace).reverse.dropWhile Char.isWhitespace).reverse

/-- The tuple of prefixes skipped by `create_summary`'s noise filter. -/
def skipMarkers : List String :=
  ["Share", "Tweet", "Follow", "Subscribe", "Sign up"]

/-- Python `s.rfind(sub)` on code points: greatest index at which `sub`
starts, `-1` if it never occurs. -/
def pyRfind (t sub : List Char) : Int :=
  match ((List.range (t.length + 1)).filter
    (fun i => sub.isPrefixOf (t.drop i))).getLast? with
  | some i => (i : Int)
  | none => -1

/-- `SummaryGenerator.create_summary` (`summary_generator.py` lines
83-137), translated clause by clause over code points. -/
def create_summary (content0 : String) (target_length : Nat := 500) : String :=
  if content0 == "" then ""
  else
    let content := pyStrip content0.toList
    let lines := List.splitOn '\n' content
    let clean_lines := (lines.map pyStrip).filter (fun line =>
      !(decide (line.length < 20)) &&
      !(skipMarkers.any (fun p => p.toList.isPrefixOf line)))
    let content := List.intercalate [' '] clean_lines
    if content.length ≤ target_length then String.mk content
    else
      let search_start := target_length - 100
      let search_end := min content.length (target_length + 100)
      let search_text := (content.drop search_start).take (search_end - search_start)
      let cut_offset : Int := pyRfind search_text ['。']
      let cut_offset := if cut_offset = -1 then pyRfind search_text ['.', ' '] else cut_offset
      let cut_offset := if cut_offset = -1 then pyRfind search_text ['!', ' '] else cut_offset
      let cut_offset := if cut_offset = -1 then pyRfind search_text ['?', ' '] else cut_offset
      let cut_offset := if cut_offset = -1 then ((target_length : Int) - (search_start : Int)) else cut_offset
      let cut_point := (search_start : Int) + cut_offset + 1
      let summary := pyStrip (content.take cut_point.toNat)
      let summary := if summary.length < content.length then summary ++ "...".toList else summary
      String.mk summary

/-- `enrich_item_with_summary` (`summary_generator.py` lines 140-178):
skip items that already have a summary longer than 200 characters or no
url; otherwise extract content (`extract`; `None`/`""` and every raised
error leave the item untouched) and install the derived summary only when
it is truthy and strictly longer than the existing one. -/
def enrich_item_with_summary (extract : String → Option String)
    (item : Item) : Item :=
  let existing := item.summary
  if !(existing == "") && decide (existing.length > 200) then item
  else
    let url := item.url
    if url == "" then item
    else
      match extract url with
      | none => item
      | some content =>
        if content == "" then item
        else
          let summary := create_summary content
          if !(summary == "") && decide (existing.length < summary.length) then
            { item with summary := summary }
          else item

/-- C6: (i) `enrich_item_with_summary` never shortens a summary — the item
is returned untouched on every skip/failure path and the new summary is
installed only when strictly longer; (ii) `get_image_for_item` returns the
item unchanged whenever it already carries a (non-empty, hence truthy)
`image_url`, so a set `image_url` is never cleared or replaced by a later
pass. -/
theorem enrichment_never_regresses (netloc : String → String)
    (fetchOg : String → Option String) (extract : String → Option String)
    (item it2 : Item) :
    item.summary.length ≤
      (enrich_item_with_summary extract item).summary.length ∧
    (pyTruthy it2.image_url = true →
      get_image_for_item netloc fetchOg it2 = it2) := by
  constructor
  · simp only [enrich_item_with_summary]
    split
    · exact le_refl _
    · split
      · exact le_refl _
      · cases hx : extract item.url with
        | none => exact le_refl _
        | some content =>
          dsimp only
          by_cases hc : (content == "") = true
          · rw [if_pos hc]
          · rw [if_neg hc]
            by_cases hrep : (!(create_summary content == "") &&
                decide (item.summary.length < (create_summary content).length)) = true
            · rw [if_pos hrep]
              have hand := (Bool.and_eq_true _ _).mp hrep
              exact le_of_lt (of_decide_eq_true hand.2)
            · rw [if_neg hrep]
  · intro h
    unfold get_image_for_item
    rw [h]
    simp

/-- C6 witness: a failing extraction leaves the summary in place, and an
item with an image keeps it. -/
theorem enrichment_never_regresses_witness :
    ({ summary := "s" } : Item).summary.length ≤
      (enrich_item_with_summary (fun _ => none)
        { summary := "s" }).summary.length ∧
    get_image_for_item (fun _ => "example.com") (fun _ => none)
      { image_url := some "https://img.example/x.png" } =
      { image_url := some "https://img.example/x.png" } := by
  have h := enrichment_never_regresses (fun _ => "example.com")
    (fun _ => none) (fun _ => none) { summary := "s" }
    { image_url := some "https://img.example/x.png" }
  exact ⟨h.1, h.2 (by decide)⟩

theorem get_fallback_image_truthy (netloc : String → String) (url : String)
    (d : String) (hd : get_domain netloc url = some d) (hne : ¬ d = "") :
    ∃ s, get_fallback_image netloc url = some s ∧ ¬ s = "" := by
  unfold get_fallback_image
  rw [hd]
  have hb : (d == "") = false := by simpa using hne
  simp only [hb, Bool.false_eq_true, if_false]
  cases hfind : SITE_LOGOS.find? (fun p => strIn p.1.toList d.toList) with
  | some p =>
    refine ⟨p.2, rfl, ?_⟩
    have hmem := List.mem_of_find?_eq_some hfind
    have hall : ∀ q ∈ SITE_LOGOS, ¬ q.2 = "" := by decide
    exact hall p hmem
  | none =>
    refine ⟨_, rfl, ?_⟩
    intro hcontra
    have hlen := congrArg String.length hcontra
    rw [String.length_append, String.length_append] at hlen
    have h43 : 0 < ("https://www.google.com/s2/favicons?domain=" : String).length :=
      by decide
    have h0 : ("" : String).length = 0 := by decide
    omega

/-- C10: for an item with no image yet, if the url's domain (after the
`www.` strip) is non-empty then `get_image_for_item` always stores a
non-empty `image_url` — whatever the Open-Graph fetch returns — and
conversely `image_url` can only remain unset when the domain is empty. -/
theorem get_image_for_item_total (netloc : String → String)
    (fetchOg : String → Option String) (item : Item)
    (h1 : pyTruthy item.image_url = false)
    (h2 : pyTruthy item.owner_avatar = false) :
    (∀ d, get_domain netloc item.url = some d → ¬ d = "" →
       ∃ s, (get_image_for_item netloc fetchOg item).image_url = some s ∧
         ¬ s = "") ∧
    (pyTruthy (get_image_for_item netloc fetchOg item).image_url = false →
       get_domain netloc item.url = some "") := by
  have hmain : ∀ d, get_domain netloc item.url = some d → ¬ d = "" →
      ∃ s, (get_image_for_item netloc fetchOg item).image_url = some s ∧
        ¬ s = "" := by
    intro d hd hne
    obtain ⟨s, hs, hsne⟩ := get_fallback_image_truthy netloc item.url d hd hne
    have hsb : (s == "") = false := by simpa using hsne
    unfold get_image_for_item
    rw [h1, h2]
    simp only [Bool.or_self, Bool.false_eq_true, if_false]
    by_cases hu : (item.url == "") = true
    · refine ⟨s, ?_, hsne⟩
      simp [hu, pyTruthy, hs, hsb]
    · have hu' : (item.url == "") = false := by simpa using hu
      cases hog : fetchOg item.url with
      | none =>
        refine ⟨s, ?_, hsne⟩
        simp [hu', hog, pyTruthy, hs, hsb]
      | some og =>
        by_cases hogt : (og == "") = true
        · have hogeq : og = "" := by simpa using hogt
          subst hogeq
          refine ⟨s, ?_, hsne⟩
          simp [hu', hog, pyTruthy, hs, hsb]
        · have hogf : (og == "") = false := by simpa using hogt
          refine ⟨og, ?_, by simpa using hogt⟩
          simp [hu', hog, pyTruthy, hogf]
  refine ⟨hmain, ?_⟩
  intro hfalse
  by_contra hne
  obtain ⟨s, hs, hsne⟩ := hmain (String.mk (removeWWW (netloc item.url).toList))
    rfl (by simpa [get_domain] using hne)
  rw [hs] at hfalse
  simp [pyTruthy] at hfalse
  exact hsne hfalse

set_option maxRecDepth 100000 in
/-- C10 witness: an imageless item on a `github.com` url gets the GitHub
logo even when the Open-Graph fetch yields nothing. -/
theorem get_image_for_item_total_witness :
    ∃ s, (get_image_for_item (fun _ => "www.github.com") (fun _ => none)
      { url := "https://github.com/anthropics/claude-code",
        title := "Claude Code" }).image_url = some s ∧ ¬ s = "" :=
  (get_image_for_item_total (fun _ => "www.github.com") (fun _ => none)
    { url := "https://github.com/anthropics/claude-code",
      title := "Claude Code" } rfl rfl).1 "github.com" (by decide) (by decide)

/-!
The driver `main` (`collect_data.py` lines 206-352) and the `__main__`
exit logic (lines 355-368). Each collector call is a value of
`Except String (List Item)`: `ok` is a normal return (collectors catch
their own fetch/parse errors internally and degrade to fewer or zero
items), `error` an exception escaping the collector.
-/

/-- The digest document assembled by `main`. -/
structure Digest where
  generated_at : Int
  total_items : Nat
  featured_item : Option Item
  items : List Item
  tutorials_and_tips : List Item
  use_cases : List Item
  claude_code : List Item
  official_updates : List Item
  community_discussions : List Item
  github_projects : List Item
  blog_posts : List Item
deriving Repr, DecidableEq

/-- The selection-and-assembly tail of `main` (lines 288-334): the first
ranked item is featured, `quality_content[1:10]` is the list,
`total_items` is capped at 10, and the buckets filter the list by
category. -/
def buildDigest (quality_content : List Item) (now : Int) : Digest :=
  let featured_item :=
    match quality_content with
    | [] => none
    | x :: _ => some x
  let remaining_items :=
    if quality_content.length > 1 then (quality_content.drop 1).take 9 else []
  { generated_at := now,
    total_items := min quality_content.length 10,
    featured_item := featured_item,
    items := remaining_items,
    tutorials_and_tips :=
      remaining_items.filter (fun it => it.category == some "tutorials_and_tips"),
    use_cases :=
      remaining_items.filter (fun it => it.category == some "use_cases"),
    claude_code :=
      remaining_items.filter (fun it => it.category == some "claude_code"),
    official_updates :=
      remaining_items.filter (fun it => it.category == some "official_updates"),
    community_discussions :=
      remaining_items.filter (fun it => it.category == some "community_discussions"),
    github_projects :=
      remaining_items.filter (fun it => it.category == some "github_projects"),
    blog_posts :=
      remaining_items.filter (fun it => it.category == some "blog_posts") }

/-- Whether an `Except` value is a normal return. -/
def isOkE {ε α : Type} : Except ε α → Bool
  | .ok _ => true
  | .error _ => false

/-- The nine sequential collector calls of `main` (lines 224-258): a
raised exception propagates at once (later collectors never run), normal
returns are concatenated in order. -/
def runCollectors (adapters : List (Except String (List Item))) :
    Except String (List Item) :=
  match adapters with
  | [] => .ok []
  | r :: rest =>
    match r with
    | .error e => .error e
    | .ok items =>
      match runCollectors rest with
      | .error e => .error e
      | .ok more => .ok (items ++ more)

/-- `main` (lines 206-352): collect, deduplicate against the ledger,
filter and rank with `min_score=15`, enrich with images then summaries,
assemble the digest, sweep the ledger with 30-day retention. -/
def mainRun (hash : String → String) (netloc : String → String)
    (fetchOg : String → Option String) (extract : String → Option String)
    (db : ContentDatabase) (now : Int)
    (adapters : List (Except String (List Item))) :
    Except String (Digest × ContentDatabase) :=
  match runCollectors adapters with
  | .error e => .error e
  | .ok all_content =>
    let (new_content, db2) := dedup_pass hash db now all_content
    let quality_content := filter_and_rank_content new_content 15
    let quality_content :=
      quality_content.map (fun it => get_image_for_item netloc fetchOg it)
    let quality_content :=
      quality_content.map (fun it => enrich_item_with_summary extract it)
    let digest := buildDigest quality_content now
    let db3 := cleanup_old_entries db2 now 30
    .ok (digest, db3)

/-- The `__main__` guard (lines 355-368): exit 1 when `main` raises, exit
1 when the digest has `total_items == 0`, exit 0 otherwise. -/
def script_exit_code (result : Except String Digest) : Nat :=
  match result with
  | .error _ => 1
  | .ok digest_data => if digest_data.total_items == 0 then 1 else 0

-- Collector sequencing lemmas.

theorem runCollectors_error (adapters : List (Except String (List Item)))
    (e : String) (h : Except.error e ∈ adapters) :
    ∃ e2, runCollectors adapters = Except.error e2 := by
  induction adapters with
  | nil => cases h
  | cons r rest ih =>
    cases r with
    | error e1 => exact ⟨e1, rfl⟩
    | ok items =>
      rcases List.mem_cons.mp h with h1 | h2
      · simp at h1
      · obtain ⟨e2, he⟩ := ih h2
        exact ⟨e2, by simp [runCollectors, he]⟩

theorem runCollectors_ok (adapters : List (Except String (List Item)))
    (h : ∀ r ∈ adapters, isOkE r = true) :
    ∃ items, runCollectors adapters = Except.ok items := by
  induction adapters with
  | nil => exact ⟨[], rfl⟩
  | cons r rest ih =>
    cases r with
    | error e =>
      have := h _ (List.mem_cons_self _ _)
      simp [isOkE] at this
    | ok items =>
      obtain ⟨more, hm⟩ := ih (fun r hr => h r (List.mem_cons_of_mem _ hr))
      exact ⟨items ++ more, by simp [runCollectors, hm]⟩

/-- C4 counterexample: one collector raising aborts the whole run — `main`
has no per-adapter handler, so no digest is produced from the other
adapters' outputs; the `__main__` handler turns this into exit 1. -/
theorem adapter_exception_aborts_run :
    mainRun id (fun _ => "") (fun _ => none) (fun _ => none) [] 0
      [Except.error "RuntimeError in collector",
       Except.ok [{ title := "t", url := "u" }]] =
      Except.error "RuntimeError in collector" := rfl

/-- C4 amended: an exception escaping any collector makes the run abort
with that error; the run completes and produces a digest precisely when
every collector returns normally (possibly with zero items — which is how
collectors report their internally-caught failures). -/
theorem mainRun_adapter_failure (hash : String → String)
    (netloc : String → String) (fetchOg : String → Option String)
    (extract : String → Option String) (db : ContentDatabase) (now : Int)
    (adapters : List (Except String (List Item))) :
    ((∃ e, Except.error e ∈ adapters) →
       isOkE (mainRun hash netloc fetchOg extract db now adapters) = false) ∧
    ((∀ r ∈ adapters, isOkE r = true) →
       ∃ out, mainRun hash netloc fetchOg extract db now adapters =
         Except.ok out) := by
  constructor
  · intro ⟨e, he⟩
    obtain ⟨e2, h2⟩ := runCollectors_error adapters e he
    simp [mainRun, h2, isOkE]
  · intro h
    obtain ⟨items, hi⟩ := runCollectors_ok adapters h
    unfold mainRun
    rw [hi]
    exact ⟨_, rfl⟩

/-- C4 amended witness: a run whose collectors all return normally
completes, a run with one raising collector does not. -/
theorem mainRun_adapter_failure_witness :
    isOkE (mainRun id (fun _ => "") (fun _ => none) (fun _ => none) [] 0
      [Except.ok [], Except.error "boom"]) = false :=
  (mainRun_adapter_failure id (fun _ => "") (fun _ => none) (fun _ => none)
    [] 0 [Except.ok [], Except.error "boom"]).1 ⟨"boom", by simp⟩

/-- C5 counterexample: a completed run with `total_items = 0` and a failed
run share exit status 1, so the three outcomes are not pairwise
distinguished; only success-with-content (exit 0) is distinct. -/
theorem script_exit_code_conflates_empty_and_error :
    script_exit_code (Except.ok (buildDigest [] 0)) =
      script_exit_code (Except.error "boom") ∧
    script_exit_code (Except.ok (buildDigest [] 0)) = 1 ∧
    script_exit_code (Except.error "boom") = 1 ∧
    script_exit_code (Except.ok (buildDigest [{}] 0)) = 0 :=
  ⟨rfl, rfl, rfl, rfl⟩

/-- C5 amended: the exit status separates success-with-content (0) from
the other two outcomes, but "no new content" and "error" both exit 1. -/
theorem script_exit_code_spec (d : Digest) (e : String) :
    (d.total_items ≠ 0 → script_exit_code (.ok d) = 0) ∧
    (d.total_items = 0 → script_exit_code (.ok d) = 1) ∧
    script_exit_code (.error e) = 1 := by
  refine ⟨?_, ?_, rfl⟩
  · intro h
    simp [script_exit_code, h]
  · intro h
    simp [script_exit_code, h]

/-- C5 amended witness at concrete digests. -/
theorem script_exit_code_spec_witness :
    script_exit_code (.ok (buildDigest [{}] 0)) = 0 ∧
    script_exit_code (.ok (buildDigest [] 0)) = 1 ∧
    script_exit_code (.error "boom") = 1 :=
  ⟨(script_exit_code_spec (buildDigest [{}] 0) "boom").1 (by decide),
   (script_exit_code_spec (buildDigest [] 0) "boom").2.1 (by decide),
   (script_exit_code_spec (buildDigest [] 0) "boom").2.2⟩

/-- C7: the digest features the head of the ranked list, lists exactly the
next at most nine items, caps `total_items` at `min (length, 10)`, and on
an empty ranked list has `total_items = 0` and no featured item. -/
theorem buildDigest_selection (l : List Item) (now : Int) :
    (buildDigest l now).featured_item = l.head? ∧
    (buildDigest l now).items = (l.drop 1).take 9 ∧
    (buildDigest l now).total_items = min l.length 10 ∧
    (l = [] → (buildDigest l now).total_items = 0 ∧
      (buildDigest l now).featured_item = none) := by
  refine ⟨?_, ?_, rfl, ?_⟩
  · cases l <;> rfl
  · show (if l.length > 1 then (l.drop 1).take 9 else []) = (l.drop 1).take 9
    split
    · rfl
    · next h =>
      match l with
      | [] => rfl
      | [x] => rfl
      | x :: y :: rest => exact absurd (by simp) h
  · intro he
    subst he
    exact ⟨rfl, rfl⟩

/-- C7 witness: the empty ranked list yields an empty digest with no
featured item. -/
theorem buildDigest_selection_witness :
    (buildDigest [] 0).total_items = 0 ∧
    (buildDigest [] 0).featured_item = none :=
  (buildDigest_selection [] 0).2.2.2 rfl
